import Mathlib

/-
Verification of the hewpme token lifecycle manager (src/utils/token.rs),
the OAuth callback validation flow (src/utils/token.rs), and the EventSub
websocket session state machine (src/websocket.rs), as a shallow embedding.

Modelling conventions:
  - UTC instants and durations are integers (seconds); only their ordered
    additive structure is used by the code under verification.
  - Network calls (token refresh, token validation, code-for-token exchange,
    subscription creation, websocket connect) are external collaborators;
    their results are supplied by explicit environment records, and the
    calls actually issued are recorded in explicit traces.
  - Rust panics (`unwrap`, `expect`, `panic!`, `todo!`) are a distinct
    outcome constructor, separate from `Result::Err` values.
-/

namespace Hewpme

/-- Minimal JSON value model, sufficient for the serde_json serialization of
the persisted `Token` record (src/utils/token.rs lines 39-48). -/
inductive Json where
  | str (s : String)
  | num (n : Int)
  | null
  | arr (xs : List Json)
  | obj (fields : List (String × Json))

/-- The persisted token record `Token` (src/utils/token.rs lines 39-48).
`access_token` and `refresh_token` are opaque secret strings, `created_at`
and `valid_till` are UTC instants (modelled as integer timestamps), and
`scopes` is an optional list of scope identifiers. -/
structure Token where
  access_token : String
  refresh_token : Option String
  created_at : Int
  valid_till : Int
  scopes : Option (List String)
deriving DecidableEq

/-- Serde serialization of `Token` (derive `Serialize`, written by
`Token::save` via `serde_json::to_writer`, src/utils/token.rs lines 128-135).
Rust `Option` fields serialize as JSON null / plain value. -/
def Token.toJson (t : Token) : Json :=
  Json.obj
    [ ("access_token", Json.str t.access_token)
    , ("refresh_token", match t.refresh_token with
        | some r => Json.str r
        | none => Json.null)
    , ("created_at", Json.num t.created_at)
    , ("valid_till", Json.num t.valid_till)
    , ("scopes", match t.scopes with
        | some s => Json.arr (s.map Json.str)
        | none => Json.null) ]

/-- Field lookup in a JSON object, as serde_json deserialization resolves
struct fields by name. -/
def Json.lookupField : Json → String → Option Json
  | Json.obj fields, k => go fields k
  | _, _ => none
where
  go : List (String × Json) → String → Option Json
    | [], _ => none
    | p :: rest, k => if p.1 = k then some p.2 else go rest k

/-- Decode a JSON string. -/
def Json.asString : Json → Option String
  | Json.str s => some s
  | _ => none

/-- Decode a JSON number as an integer timestamp. -/
def Json.asInt : Json → Option Int
  | Json.num n => some n
  | _ => none

/-- Decode a Rust `Option<String>` field (null or string). -/
def Json.asOptString : Json → Option (Option String)
  | Json.null => some none
  | Json.str s => some (some s)
  | _ => none

/-- Decode a JSON array of strings. -/
def decodeStrings : List Json → Option (List String)
  | [] => some []
  | j :: rest =>
    match j.asString, decodeStrings rest with
    | some s, some ss => some (s :: ss)
    | _, _ => none

/-- Decode a Rust `Option<Vec<Scope>>` field (null or array of strings). -/
def Json.asOptStringList : Json → Option (Option (List String))
  | Json.null => some none
  | Json.arr xs => (decodeStrings xs).map some
  | _ => none

/-- Serde deserialization of `Token` (derive `Deserialize`, read by
`get_token_from_file` via `serde_json::from_reader`,
src/utils/token.rs lines 213-218). -/
def Token.fromJson (j : Json) : Option Token := do
  let ja ← j.lookupField "access_token"
  let a ← ja.asString
  let jr ← j.lookupField "refresh_token"
  let r ← jr.asOptString
  let jc ← j.lookupField "created_at"
  let c ← jc.asInt
  let jv ← j.lookupField "valid_till"
  let v ← jv.asInt
  let js ← j.lookupField "scopes"
  let s ← js.asOptStringList
  pure { access_token := a, refresh_token := r, created_at := c,
         valid_till := v, scopes := s }

/-- A provider-validated, ready-to-use user token (the `twitch_oauth2`
`UserToken` as used by this repository): the secrets, the identity metadata
filled in by validation, the scope list, and the provider-reported remaining
lifetime in seconds (`expires_in`). -/
structure UserToken where
  access_token : String
  refresh_token : Option String
  login : String
  user_id : String
  scopes : List String
  expires_in : Int
deriving DecidableEq

/-- Outcome of a token-store operation: a value, or a Rust panic with the
panic message. -/
inductive TOutcome (α : Type) where
  | ok (a : α)
  | panic (msg : String)
deriving DecidableEq

/-- Environment for `Token::into_user_token`: results of the external
calls it may issue, and the clock value observed when a refreshed token is
converted back into a `Token` record for persistence. -/
structure UserTokenEnv where
  /-- Whether `user_token.refresh_token(client)` succeeds (the refresh grant
  is accepted by the provider). -/
  refreshOk : Bool
  /-- Whether the post-refresh `UserToken::from_existing` validation call
  succeeds. -/
  validateOk : Bool
  /-- The validated token returned by the post-refresh validation call. -/
  validated : UserToken
  /-- Whether the non-expired-path `UserToken::from_existing` validation
  call succeeds. -/
  validateExistingOk : Bool
  /-- The validated token returned on the non-expired path. -/
  validatedExisting : UserToken
  /-- Whether `token.save(...)` succeeds. -/
  saveOk : Bool
  /-- The clock value `Utc::now()` observed inside `From<&UserToken> for
  Token` when the refreshed token is converted for persistence. -/
  now2 : Int
deriving DecidableEq

/-- Observable effects of `Token::into_user_token`: how many refresh-grant
calls were issued, and the record persisted to the eventsub token file, if
any. -/
structure TokenEffects where
  refreshCalls : Nat
  persisted : Option Token
deriving DecidableEq

/-- Conversion `From<&UserToken> for Token` (src/utils/token.rs lines
56-69): `created_at` is the current instant and `valid_till` is recomputed
as now plus the provider-reported remaining lifetime. -/
def Token.fromUserToken (u : UserToken) (now : Int) : Token :=
  { access_token := u.access_token
  , refresh_token := u.refresh_token
  , created_at := now
  , valid_till := now + u.expires_in
  , scopes := some u.scopes }

/-- The `refresh_expired` helper (src/utils/token.rs lines 170-195).
It first builds a `UserToken` via `from_existing_unchecked`, unwrapping
`token.scopes` unconditionally (a panic when `scopes` is `None`, before any
network call); then issues the refresh grant (`expect` on failure); then
re-validates via `from_existing` (`expect` on failure). The second
component counts refresh-grant calls actually issued. -/
def refresh_expired (token : Token) (env : UserTokenEnv) :
    TOutcome UserToken × Nat :=
  match token.scopes with
  | none => (TOutcome.panic "called Option::unwrap on a None value", 0)
  | some _ =>
    if env.refreshOk then
      if env.validateOk then (TOutcome.ok env.validated, 1)
      else (TOutcome.panic "Unable to get token", 1)
    else (TOutcome.panic "Unable to refresh token", 1)

/-- The materialization step `Token::into_user_token` (src/utils/token.rs
lines 141-167). `is_expired` is `self.valid_till < Utc::now()`; on the
expired path the token is refreshed via `refresh_expired`, converted back
to a `Token` record, and saved (`expect` on save failure); otherwise the
stored access token is validated directly via `from_existing`. -/
def Token.into_user_token (t : Token) (now : Int) (env : UserTokenEnv) :
    TOutcome UserToken × TokenEffects :=
  let is_expired := t.valid_till < now
  if is_expired then
    match refresh_expired t env with
    | (TOutcome.ok u, n) =>
      let tok := Token.fromUserToken u env.now2
      if env.saveOk then (TOutcome.ok u, ⟨n, some tok⟩)
      else (TOutcome.panic "Unable to store refreshed token", ⟨n, none⟩)
    | (TOutcome.panic m, n) => (TOutcome.panic m, ⟨n, none⟩)
  else
    if env.validateExistingOk then
      (TOutcome.ok env.validatedExisting, ⟨0, none⟩)
    else
      (TOutcome.panic "Unable to get token", ⟨0, none⟩)

/-- A callback query map (the `HashMap<String, String>` delivered by the
callback listener), as an association list with first-match lookup. -/
abbrev Query := List (String × String)

/-- Map lookup, modelling `HashMap::get` (keys are unique in a hash map, so
first-match lookup is faithful). -/
def qget (q : Query) (k : String) : Option String :=
  match q with
  | [] => none
  | p :: rest => if p.1 = k then some p.2 else qget rest k

/-- The private `Error` enum of src/utils/token.rs (lines 109-113): the
anti-forgery failures of the authorization flow. -/
inductive AuthError where
  | NoCsrfToken
  | CsrfTokenMismatch
deriving DecidableEq

/-- Observable events of the authorization flow, in order of occurrence:
query-parameter inspections, the anti-forgery comparison of the `state`
value against the generated CSRF token, and the code-for-token exchange. -/
inductive FlowEvent where
  | readKey (k : String)
  | csrfCompare (s : String)
  | exchange (state code : String)
deriving DecidableEq

/-- The `verify_csrf_token` check (src/utils/token.rs lines 236-251)
together with its event trace. It looks up only the `state` parameter; when
present, compares it against the CSRF token generated for this attempt
(`builder.csrf_is_valid`); when absent, fails with `NoCsrfToken` without
any comparison. -/
def verify_csrf_token (response : Query) (csrf : String) :
    Except AuthError Unit × List FlowEvent :=
  match qget response "state" with
  | some s =>
    (if csrf = s then Except.ok () else Except.error AuthError.CsrfTokenMismatch,
     [FlowEvent.readKey "state", FlowEvent.csrfCompare s])
  | none => (Except.error AuthError.NoCsrfToken, [FlowEvent.readKey "state"])

/-- Result of `extract_url` (src/utils/token.rs lines 265-275): a panic
when both `error` and `error_description` are present, the `(state, code)`
pair when both are present, and `Err(())` otherwise. -/
inductive ExtractResult where
  | panicErr (e d : String)
  | okPair (state code : String)
  | err
deriving DecidableEq

/-- The `extract_url` helper (src/utils/token.rs lines 265-275) together
with its event trace: it first inspects `error` and `error_description`
(panicking when both are present, before reading `state` or `code`), then
requires both `state` and `code`. -/
def extract_url (q : Query) : ExtractResult × List FlowEvent :=
  match qget q "error", qget q "error_description" with
  | some e, some d =>
    (ExtractResult.panicErr e d,
     [FlowEvent.readKey "error", FlowEvent.readKey "error_description"])
  | _, _ =>
    match qget q "state", qget q "code" with
    | some s, some c =>
      (ExtractResult.okPair s c,
       [FlowEvent.readKey "error", FlowEvent.readKey "error_description",
        FlowEvent.readKey "state", FlowEvent.readKey "code"])
    | _, _ =>
      (ExtractResult.err,
       [FlowEvent.readKey "error", FlowEvent.readKey "error_description",
        FlowEvent.readKey "state", FlowEvent.readKey "code"])

/-- Environment for the code-for-token exchange issued by
`request_user_token`: whether `get_user_token` succeeds and the token it
returns. -/
structure ExchangeEnv where
  exchangeOk : Bool
  exchanged : UserToken
deriving DecidableEq

/-- Final outcome of `request_user_token`: a token, or one of its distinct
abort sites — the `panic!` on an anti-forgery failure (carrying the
`AuthError`), the `panic!` inside `extract_url` on provider-reported
`error`/`error_description` parameters, the `expect` on a failed exchange,
and the `todo!()` reached when `state`/`code` are incomplete. -/
inductive FlowOutcome where
  | ok (u : UserToken)
  | panicCsrf (e : AuthError)
  | panicErrorParams (e d : String)
  | panicExchange
  | panicTodo
deriving DecidableEq

/-- Whether a flow outcome aborts the authorization flow (every outcome
other than a successfully obtained token). -/
def FlowOutcome.isFatal : FlowOutcome → Bool
  | FlowOutcome.ok _ => false
  | _ => true

/-- Result of a full `request_user_token` run: the outcome and the ordered
event trace. -/
structure AuthFlow where
  outcome : FlowOutcome
  trace : List FlowEvent
deriving DecidableEq

/-- The validation-and-exchange portion of `request_user_token`
(src/utils/token.rs lines 277-321), after the single callback query has
been received: `verify_csrf_token` runs first (panicking on failure), then
`extract_url`, then the code-for-token exchange `get_user_token` on the
extracted pair. -/
def request_user_token (q : Query) (csrf : String) (env : ExchangeEnv) :
    AuthFlow :=
  match verify_csrf_token q csrf with
  | (Except.error e, tr1) => ⟨FlowOutcome.panicCsrf e, tr1⟩
  | (Except.ok _, tr1) =>
    match extract_url q with
    | (ExtractResult.panicErr e d, tr2) =>
      ⟨FlowOutcome.panicErrorParams e d, tr1 ++ tr2⟩
    | (ExtractResult.okPair s c, tr2) =>
      if env.exchangeOk then
        ⟨FlowOutcome.ok env.exchanged, tr1 ++ tr2 ++ [FlowEvent.exchange s c]⟩
      else
        ⟨FlowOutcome.panicExchange, tr1 ++ tr2 ++ [FlowEvent.exchange s c]⟩
    | (ExtractResult.err, tr2) => ⟨FlowOutcome.panicTodo, tr1 ++ tr2⟩

/-- Insertion into a `HashSet<String>`: a no-op when the element is already
present (modelled on lists, insertion order kept for concreteness). -/
def hashSetInsert (s : List String) (x : String) : List String :=
  if x ∈ s then s else s ++ [x]

/-- The event sink `TwitchEventList` (src/helper.rs lines 6-32): two
de-duplicating sets of rendered follower / subscriber identities. The
per-set mutexes only serialize access and are not modelled. -/
structure TwitchEventList where
  followers_list : List String
  subscribers_list : List String
deriving DecidableEq

/-- The `add_follower` operation (src/helper.rs lines 13-17). -/
def TwitchEventList.add_follower (l : TwitchEventList) (f : String) :
    TwitchEventList :=
  { l with followers_list := hashSetInsert l.followers_list f }

/-- The `add_subscriber` operation (src/helper.rs lines 19-23). -/
def TwitchEventList.add_subscriber (l : TwitchEventList) (s : String) :
    TwitchEventList :=
  { l with subscribers_list := hashSetInsert l.subscribers_list s }

/-- The `WebsocketClient` state (src/websocket.rs lines 26-39). The
`token` field is reduced to what the session reads from it: whether
`token.is_elapsed()` holds and `token.user_id` (the moderator identity).
The `client` (REST handle) is replaced by the subscription-call
environment; urls are strings. -/
structure WebsocketClient where
  session_id : Option String
  token_elapsed : Bool
  token_user_id : String
  user_id : String
  connect_url : String
  events_list : TwitchEventList
deriving DecidableEq

/-- The `SessionData` of a Welcome/Reconnect payload: session id and
optional reconnect url. -/
structure SessionData where
  id : String
  reconnect_url : Option String
deriving DecidableEq

/-- Payload of a channel.follow v2 notification. -/
structure ChannelFollowV2Payload where
  user_name : String
  user_id : String
deriving DecidableEq

/-- Payload of a channel.subscribe v1 notification. -/
structure ChannelSubscribeV1Payload where
  user_name : String
  user_id : String
deriving DecidableEq

/-- The `eventsub::Message` wrapper carried inside a notification payload:
the handlers only act on the `Notification` variant and ignore the others
(verification requests, revocations). -/
inductive EventsubMessage (α : Type) where
  | notification (payload : α)
  | otherVariant
deriving DecidableEq

/-- The decoded `Event` of a Notification frame, by type discriminator:
the two categories this session recognizes, and a catch-all for every
other event category (the `_` arm of `handle_notification`). -/
inductive Event where
  | channelFollowV2 (message : EventsubMessage ChannelFollowV2Payload)
  | channelSubscribeV1 (message : EventsubMessage ChannelSubscribeV1Payload)
  | otherCategory (category : String)
deriving DecidableEq

/-- A decoded websocket frame (`EventsubWebsocketData`). -/
inductive EventsubWebsocketData where
  | welcome (session : SessionData)
  | reconnect (session : SessionData)
  | notification (event : Event)
  | revocation
  | keepalive
deriving DecidableEq

deriving instance DecidableEq for Except

/-- A transport message as seen by `process_message`: a text frame is
represented by the result of `Event::parse_websocket` on its contents
(parsing is an external library call), plus close, ping, and the other
frame kinds. -/
inductive WsMessage where
  | text (parsed : Except String EventsubWebsocketData)
  | close
  | ping
  | otherFrame
deriving DecidableEq

/-- The `WSError` wrapper (src/websocket.rs lines 41-58): every error is
converted to its display string. -/
structure WSError where
  description : String
deriving DecidableEq

/-- Outcome of session processing: a value, an error `Result::Err`
propagated to the caller, or a Rust panic (the `todo!()` sites). -/
inductive RunResult (α : Type) where
  | ok (a : α)
  | err (e : WSError)
  | panic (msg : String)
deriving DecidableEq

/-- Whether a `RunResult` is an `Err` value. -/
def RunResult.isErr {α : Type} : RunResult α → Bool
  | RunResult.err _ => true
  | _ => false

/-- A subscription-creation request issued against the Helix client, with
the condition fields and the websocket transport's session id. -/
inductive SubRequest where
  | channelFollow (broadcaster moderator transportSession : String)
  | channelSubscribe (broadcaster transportSession : String)
deriving DecidableEq

/-- Environment for `make_eventsub_subscriptions`: whether each of the two
`create_eventsub_subscription` calls succeeds. -/
structure SubEnv where
  followOk : Bool
  subscribeOk : Bool
deriving DecidableEq

/-- The `debug` cargo feature flag of `put_follower_name` /
`put_subscriber_name` (`cfg!(feature = "debug")`), off in a default
build. -/
def debugFeature : Bool := false

/-- Rendering of a notification identity (src/websocket.rs lines 261-279):
the display name, with the platform user id appended when the debug
feature is enabled. -/
def renderUser (user_name user_id : String) : String :=
  if debugFeature then user_name ++ user_id else user_name

/-- The `make_eventsub_subscriptions` step (src/websocket.rs lines
202-227): a channel.follow v2 subscription for (broadcaster, moderator),
then a channel.subscribe v1 subscription for the broadcaster, both over
the websocket transport of `data.id`; each call's failure returns early
via `?`. The second component lists the requests actually issued, in
order. -/
def make_eventsub_subscriptions (c : WebsocketClient) (data : SessionData)
    (env : SubEnv) : Except WSError Unit × List SubRequest :=
  let r1 := SubRequest.channelFollow c.user_id c.token_user_id data.id
  if env.followOk then
    let r2 := SubRequest.channelSubscribe c.user_id data.id
    if env.subscribeOk then (Except.ok (), [r1, r2])
    else (Except.error ⟨"subscription request failed"⟩, [r1, r2])
  else (Except.error ⟨"subscription request failed"⟩, [r1])

/-- The `process_welcome_message` step (src/websocket.rs lines 185-200):
set `session_id` from the frame, adopt the reconnect url when present,
panic on the `todo!` when the active token is already elapsed, then fire
the subscription set. -/
def process_welcome_message (c : WebsocketClient) (data : SessionData)
    (env : SubEnv) : RunResult WebsocketClient × List SubRequest :=
  let c1 := { c with session_id := some data.id }
  let c2 := match data.reconnect_url with
    | some u => { c1 with connect_url := u }
    | none => c1
  if c2.token_elapsed then
    (RunResult.panic "Token expired - handle that somehow", [])
  else
    match make_eventsub_subscriptions c2 data env with
    | (Except.ok _, reqs) => (RunResult.ok c2, reqs)
    | (Except.error e, reqs) => (RunResult.err e, reqs)

/-- The notification dispatcher `handle_notification` together with the
two event handlers (src/websocket.rs lines 229-279): a recognized category
whose message is a `Notification` inserts the rendered identity into the
matching event sink set; every other case leaves the state unchanged. -/
def handle_notification (c : WebsocketClient) (event : Event) :
    WebsocketClient :=
  match event with
  | Event.channelFollowV2 (EventsubMessage.notification p) =>
    { c with events_list := c.events_list.add_follower (renderUser p.user_name p.user_id) }
  | Event.channelFollowV2 EventsubMessage.otherVariant => c
  | Event.channelSubscribeV1 (EventsubMessage.notification p) =>
    { c with events_list := c.events_list.add_subscriber (renderUser p.user_name p.user_id) }
  | Event.channelSubscribeV1 EventsubMessage.otherVariant => c
  | Event.otherCategory _ => c

/-- The frame dispatcher `process_message` (src/websocket.rs lines
127-183): parse failures of a text frame become `Err`; Welcome and
Reconnect frames share `process_welcome_message`; Notification frames go
to `handle_notification`; Revocation, Keepalive, Ping and other frames are
no-ops; a Close frame hits `todo!()`. -/
def process_message (c : WebsocketClient) (msg : WsMessage) (env : SubEnv) :
    RunResult WebsocketClient × List SubRequest :=
  match msg with
  | WsMessage.text (Except.error e) => (RunResult.err ⟨e⟩, [])
  | WsMessage.text (Except.ok data) =>
    match data with
    | EventsubWebsocketData.welcome s => process_welcome_message c s env
    | EventsubWebsocketData.reconnect s => process_welcome_message c s env
    | EventsubWebsocketData.notification ev =>
      (RunResult.ok (handle_notification c ev), [])
    | EventsubWebsocketData.revocation => (RunResult.ok c, [])
    | EventsubWebsocketData.keepalive => (RunResult.ok c, [])
  | WsMessage.close => (RunResult.panic "not yet implemented", [])
  | WsMessage.ping => (RunResult.ok c, [])
  | WsMessage.otherFrame => (RunResult.ok c, [])

/-- One read of the websocket stream inside `run`: a delivered message, the
`ResetWithoutClosingHandshake` protocol error, or any other read error
(carried by its display string). -/
inductive ReadEvent where
  | msg (m : WsMessage)
  | resetError
  | otherError (e : String)
deriving DecidableEq

/-- Result of observing a `run` loop over a finite prefix of read events:
the outcome (`ok` meaning the prefix was consumed with the loop still
running), the connection attempts made (their target urls, in order), the
final client state, and all subscription requests issued. -/
structure RunOutput where
  result : RunResult Unit
  attempts : List String
  final : WebsocketClient
  subs : List SubRequest
deriving DecidableEq

/-- Draw the next `connect()` result from the oracle list (connections
succeed once the oracle is exhausted). -/
def takeConnect (results : List Bool) : Bool × List Bool :=
  match results with
  | [] => (true, [])
  | b :: rest => (b, rest)

/-- The read loop of `run` (src/websocket.rs lines 100-123) over a finite
prefix of read events. A `ResetWithoutClosingHandshake` error triggers one
`connect()` call to the current `connect_url` (failure propagates via `?`);
any other read error propagates via `?` and terminates the loop; a message
goes through `process_message`, whose `Err` terminates the loop. -/
def runAux (env : SubEnv) :
    WebsocketClient → List ReadEvent → List Bool → RunOutput
  | c, [], _ => ⟨RunResult.ok (), [], c, []⟩
  | c, ReadEvent.resetError :: rest, cres =>
    let (b, cres') := takeConnect cres
    if b then
      let o := runAux env c rest cres'
      { o with attempts := c.connect_url :: o.attempts }
    else ⟨RunResult.err ⟨"connect failed"⟩, [c.connect_url], c, []⟩
  | c, ReadEvent.otherError e :: _, _ => ⟨RunResult.err ⟨e⟩, [], c, []⟩
  | c, ReadEvent.msg m :: rest, cres =>
    match process_message c m env with
    | (RunResult.ok c', reqs) =>
      let o := runAux env c' rest cres
      { o with subs := reqs ++ o.subs }
    | (RunResult.err e, reqs) => ⟨RunResult.err e, [], c, reqs⟩
    | (RunResult.panic s, reqs) => ⟨RunResult.panic s, [], c, reqs⟩

/-- The `run` entry point (src/websocket.rs lines 96-124): one initial
`connect()` to `connect_url` (failure propagates via `?`), then the read
loop. -/
def run (c : WebsocketClient) (events : List ReadEvent) (cres : List Bool)
    (env : SubEnv) : RunOutput :=
  let (b, cres') := takeConnect cres
  if b then
    let o := runAux env c events cres'
    { o with attempts := c.connect_url :: o.attempts }
  else ⟨RunResult.err ⟨"connect failed"⟩, [c.connect_url], c, []⟩

/-- A concrete validated user token, used to instantiate environments. -/
def uEx : UserToken :=
  { access_token := "at", refresh_token := some "rt", login := "streamer"
  , user_id := "42", scopes := ["moderator:read:followers"], expires_in := 3600 }

/-- A concrete all-success environment for `Token.into_user_token`. -/
def envTok : UserTokenEnv :=
  { refreshOk := true, validateOk := true, validated := uEx
  , validateExistingOk := true, validatedExisting := uEx
  , saveOk := true, now2 := 10 }

/-- A concrete stored token whose `valid_till` is the instant 5. -/
def tPast : Token :=
  { access_token := "a", refresh_token := some "r", created_at := 0
  , valid_till := 5, scopes := some ["chat:read"] }

/-- A concrete stored token with `valid_till = 5` and `scopes = None`. -/
def tNoScopes : Token :=
  { access_token := "a", refresh_token := some "r", created_at := 0
  , valid_till := 5, scopes := none }

/-- A concrete all-success exchange environment. -/
def exEnv : ExchangeEnv := { exchangeOk := true, exchanged := uEx }

/-- A concrete callback query with a well-formed `code` but no `state`. -/
def qNoState : Query := [("code", "c0")]

/-- A concrete callback query with a mismatched `state` and a `code`. -/
def qMismatch : Query := [("state", "bad"), ("code", "c0")]

/-- A concrete callback query carrying provider error parameters together
with a `state` matching the CSRF token `"tok"` and a well-formed `code`. -/
def qDenied : Query :=
  [ ("error", "access_denied"), ("error_description", "denied")
  , ("state", "tok"), ("code", "c0") ]

/-- A concrete empty event sink. -/
def listEx : TwitchEventList := { followers_list := [], subscribers_list := [] }

/-- A concrete websocket client state with a fresh (non-elapsed) token. -/
def cEx : WebsocketClient :=
  { session_id := none, token_elapsed := false, token_user_id := "mod1"
  , user_id := "bcast1", connect_url := "wss://eventsub.example/ws"
  , events_list := listEx }

/-- Subscription environment where both subscription calls succeed. -/
def envAllOk : SubEnv := { followOk := true, subscribeOk := true }

/-- Subscription environment where the first (channel.follow) call fails. -/
def envFollowFail : SubEnv := { followOk := false, subscribeOk := true }

/-- Subscription environment where the second (channel.subscribe) call
fails. -/
def envSubscribeFail : SubEnv := { followOk := true, subscribeOk := false }

/-- Decoding the string-array encoding of a scope list is the identity. -/
theorem decodeStrings_map_str (s : List String) :
    decodeStrings (s.map Json.str) = some s := by
  induction s with
  | nil => rfl
  | cons x xs ih => simp [decodeStrings, Json.asString, ih]

/-- C5: saving any `Token` record and immediately reloading it yields a
record field-for-field equal to the original on `access_token`,
`refresh_token`, `created_at`, `valid_till` and `scopes`: serde
serialization followed by deserialization is the identity on `Token`. -/
theorem token_save_load_roundtrip (t : Token) :
    Token.fromJson (Token.toJson t) = some t := by
  cases t with
  | mk a r cr v s =>
    cases r <;> cases s <;>
      simp [Token.toJson, Token.fromJson, Json.lookupField, Json.lookupField.go,
            Json.asString, Json.asInt, Json.asOptString, Json.asOptStringList,
            decodeStrings_map_str]

/-- C10: for a stored token whose `valid_till` is in the past and whose
`scopes` field is `None`, `into_user_token` panics at the unconditional
`unwrap` of `scopes` inside `refresh_expired` before issuing any refresh
call: zero refresh-grant calls are made and nothing is persisted. -/
theorem into_user_token_scopes_none_panics (t : Token) (now : Int)
    (env : UserTokenEnv) (hsc : t.scopes = none) (hp : t.valid_till < now) :
    Token.into_user_token t now env =
      (TOutcome.panic "called Option::unwrap on a None value",
       ⟨0, none⟩) := by
  simp [Token.into_user_token, refresh_expired, hsc, hp]

/-- Witness for `into_user_token_scopes_none_panics` at the concrete token
`tNoScopes` and call time 6. -/
theorem into_user_token_scopes_none_panics_witness :
    Token.into_user_token tNoScopes 6 envTok =
      (TOutcome.panic "called Option::unwrap on a None value",
       ⟨0, none⟩) :=
  into_user_token_scopes_none_panics tNoScopes 6 envTok rfl (by decide)

/-- C2 counterexample: at the boundary instant `now = valid_till` (token
`tPast` with `valid_till = 5`, call time 5) we have `now ≥ valid_till`,
yet `into_user_token` issues no refresh call, because the code's
expiration test is the strict `self.valid_till < Utc::now()`. -/
theorem into_user_token_boundary_cex :
    tPast.valid_till ≤ (5 : Int)
    ∧ (Token.into_user_token tPast 5 envTok).2.refreshCalls = 0 := by
  constructor
  · decide
  · rfl

/-- C2 (amended): `into_user_token` performs a refresh grant if and only
if `valid_till` is strictly before the call time; when it is, exactly one
refresh call is issued, the refreshed record is persisted, and (the
provider reporting a positive remaining lifetime) the persisted record's
freshly recomputed `valid_till` is strictly greater than the call time. -/
theorem into_user_token_refresh (t : Token) (now : Int) (env : UserTokenEnv)
    (hsc : t.scopes.isSome = true)
    (href : env.refreshOk = true) (hval : env.validateOk = true)
    (hvex : env.validateExistingOk = true) (hsave : env.saveOk = true)
    (hmono : now ≤ env.now2) (hpos : 0 < env.validated.expires_in) :
    ((Token.into_user_token t now env).2.refreshCalls = 1 ↔ t.valid_till < now)
    ∧ (t.valid_till < now →
        (Token.into_user_token t now env).2.persisted =
          some (Token.fromUserToken env.validated env.now2)
        ∧ now < (Token.fromUserToken env.validated env.now2).valid_till) := by
  obtain ⟨s, hs⟩ := Option.isSome_iff_exists.mp hsc
  by_cases h : t.valid_till < now
  · refine ⟨by simp [Token.into_user_token, refresh_expired, hs, h, href, hval, hsave], ?_⟩
    intro _
    refine ⟨by simp [Token.into_user_token, refresh_expired, hs, h, href, hval, hsave], ?_⟩
    simp only [Token.fromUserToken]
    omega
  · refine ⟨?_, fun hc => absurd hc h⟩
    simp [Token.into_user_token, refresh_expired, hs, h, hvex]

/-- Witness for `into_user_token_refresh` at the concrete token `tPast`
(`valid_till = 5`) and call time 6, with the all-success environment
`envTok`. -/
theorem into_user_token_refresh_witness :
    ((Token.into_user_token tPast 6 envTok).2.refreshCalls = 1
      ↔ tPast.valid_till < 6)
    ∧ (tPast.valid_till < 6 →
        (Token.into_user_token tPast 6 envTok).2.persisted =
          some (Token.fromUserToken envTok.validated envTok.now2)
        ∧ 6 < (Token.fromUserToken envTok.validated envTok.now2).valid_till) :=
  into_user_token_refresh tPast 6 envTok rfl rfl rfl rfl rfl
    (by decide) (by decide)

/-- C1: on a Welcome frame with session id `i` and no reconnect url, the
session sets `session_id := some i` and changes nothing else (in
particular `connect_url` is unchanged); when both subscription calls
succeed, exactly the two subscription-creation requests are issued, in
the fixed order channel.follow then channel.subscribe, and processing
succeeds; when the first call fails the second is not issued and
processing returns an error; when the second fails both were issued and
processing returns an error. -/
theorem welcome_fires_fixed_subscriptions (c : WebsocketClient) (i : String)
    (env : SubEnv) (hT : c.token_elapsed = false) :
    (env.followOk = true → env.subscribeOk = true →
      process_message c
          (WsMessage.text (Except.ok (EventsubWebsocketData.welcome ⟨i, none⟩))) env
        = (RunResult.ok { c with session_id := some i },
           [SubRequest.channelFollow c.user_id c.token_user_id i,
            SubRequest.channelSubscribe c.user_id i]))
    ∧ (env.followOk = false →
      process_message c
          (WsMessage.text (Except.ok (EventsubWebsocketData.welcome ⟨i, none⟩))) env
        = (RunResult.err ⟨"subscription request failed"⟩,
           [SubRequest.channelFollow c.user_id c.token_user_id i]))
    ∧ (env.followOk = true → env.subscribeOk = false →
      process_message c
          (WsMessage.text (Except.ok (EventsubWebsocketData.welcome ⟨i, none⟩))) env
        = (RunResult.err ⟨"subscription request failed"⟩,
           [SubRequest.channelFollow c.user_id c.token_user_id i,
            SubRequest.channelSubscribe c.user_id i])) := by
  refine ⟨fun h1 h2 => ?_, fun h1 => ?_, fun h1 h2 => ?_⟩ <;>
    simp [process_message, process_welcome_message, make_eventsub_subscriptions,
          hT, h1, *]

/-- Witness for `welcome_fires_fixed_subscriptions`: the concrete client
`cEx` welcomed with session id `"abc"`, both subscription calls
succeeding. -/
theorem welcome_fires_fixed_subscriptions_witness :
    process_message cEx
        (WsMessage.text (Except.ok (EventsubWebsocketData.welcome ⟨"abc", none⟩)))
        envAllOk
      = (RunResult.ok { cEx with session_id := some "abc" },
         [SubRequest.channelFollow cEx.user_id cEx.token_user_id "abc",
          SubRequest.channelSubscribe cEx.user_id "abc"]) :=
  (welcome_fires_fixed_subscriptions cEx "abc" envAllOk rfl).1 rfl rfl

/-- C6: on a Reconnect frame carrying the new url `U`, the session
replaces `connect_url` with `U` (while adopting the carried session id),
and the next connection attempt made by the read loop (here: the one
triggered by a transport reset) targets `U` rather than the previously
configured url. -/
theorem reconnect_retargets_connect_url (c : WebsocketClient) (i U : String)
    (env : SubEnv) (hT : c.token_elapsed = false)
    (h1 : env.followOk = true) (h2 : env.subscribeOk = true) :
    process_message c
        (WsMessage.text (Except.ok (EventsubWebsocketData.reconnect ⟨i, some U⟩))) env
      = (RunResult.ok { c with session_id := some i, connect_url := U },
         [SubRequest.channelFollow c.user_id c.token_user_id i,
          SubRequest.channelSubscribe c.user_id i])
    ∧ (∀ rest cres,
        (runAux env { c with session_id := some i, connect_url := U }
            (ReadEvent.resetError :: rest) (true :: cres)).attempts
          = U :: (runAux env { c with session_id := some i, connect_url := U }
              rest cres).attempts) := by
  constructor
  · simp [process_message, process_welcome_message, make_eventsub_subscriptions,
          hT, h1, h2]
  · intro rest cres
    simp [runAux, takeConnect]

/-- Witness for `reconnect_retargets_connect_url`: the concrete client
`cEx` receiving a Reconnect frame that carries session id `"s2"` and the
new url `"wss://other.example/ws"`. -/
theorem reconnect_retargets_connect_url_witness :
    process_message cEx
        (WsMessage.text (Except.ok
          (EventsubWebsocketData.reconnect ⟨"s2", some "wss://other.example/ws"⟩)))
        envAllOk
      = (RunResult.ok
          { cEx with session_id := some "s2", connect_url := "wss://other.example/ws" },
         [SubRequest.channelFollow cEx.user_id cEx.token_user_id "s2",
          SubRequest.channelSubscribe cEx.user_id "s2"]) :=
  (reconnect_retargets_connect_url cEx "s2" "wss://other.example/ws" envAllOk
    rfl rfl rfl).1

/-- C7: a `ResetWithoutClosingHandshake` read error triggers exactly one
reconnection attempt, to the current `connect_url`; when that attempt
succeeds the read loop continues over the remaining events with this
single attempt recorded, when it fails the error propagates after that
single attempt; any other read error, and likewise a decode failure of a
text frame (`Event::parse_websocket` returning `Err`), terminates the loop
immediately with no reconnection attempt. -/
theorem reset_reconnects_once_same_url (env : SubEnv) (c : WebsocketClient)
    (rest : List ReadEvent) (cres : List Bool) (e : String) :
    runAux env c (ReadEvent.resetError :: rest) (true :: cres)
      = { runAux env c rest cres with
          attempts := c.connect_url :: (runAux env c rest cres).attempts }
    ∧ runAux env c (ReadEvent.resetError :: rest) (false :: cres)
      = ⟨RunResult.err ⟨"connect failed"⟩, [c.connect_url], c, []⟩
    ∧ runAux env c (ReadEvent.otherError e :: rest) cres
      = ⟨RunResult.err ⟨e⟩, [], c, []⟩
    ∧ runAux env c
        (ReadEvent.msg (WsMessage.text (Except.error e)) :: rest) cres
      = ⟨RunResult.err ⟨e⟩, [], c, []⟩ := by
  refine ⟨?_, ?_, ?_, ?_⟩ <;> simp [runAux, takeConnect, process_message]

/-- C8: a Notification frame whose event category is not one of the two
recognized ones is processed successfully and leaves the entire client
state — in particular the follower set and the subscriber set —
unchanged, issuing no subscription request. -/
theorem unknown_notification_noop (c : WebsocketClient) (cat : String)
    (env : SubEnv) :
    process_message c
        (WsMessage.text (Except.ok
          (EventsubWebsocketData.notification (Event.otherCategory cat)))) env
      = (RunResult.ok c, [])
    ∧ (handle_notification c (Event.otherCategory cat)).events_list.followers_list
      = c.events_list.followers_list
    ∧ (handle_notification c (Event.otherCategory cat)).events_list.subscribers_list
      = c.events_list.subscribers_list :=
  ⟨rfl, rfl, rfl⟩

/-- C9 counterexample: at the concrete client `cEx`, a Close frame makes
`process_message` hit the `todo!()` and panic; the outcome is not an
`Err` value, contradicting the claim that an error value is returned and
propagated. -/
theorem close_frame_no_error_cex :
    (process_message cEx WsMessage.close envAllOk).1
      = RunResult.panic "not yet implemented"
    ∧ (process_message cEx WsMessage.close envAllOk).1.isErr = false :=
  ⟨rfl, rfl⟩

/-- C9 (amended): an unexpected close frame makes `process_message` hit
the `todo!()` placeholder and panic — the session aborts by panic, with
no subscription request issued, rather than returning an error value for
`run` to propagate; the read loop ends in that panic. -/
theorem close_frame_panics (c : WebsocketClient) (env : SubEnv)
    (rest : List ReadEvent) (cres : List Bool) :
    process_message c WsMessage.close env
      = (RunResult.panic "not yet implemented", [])
    ∧ runAux env c (ReadEvent.msg WsMessage.close :: rest) cres
      = ⟨RunResult.panic "not yet implemented", [], c, []⟩ :=
  ⟨rfl, rfl⟩

/-- Evaluation of `request_user_token` when the callback query has no
`state` parameter: the flow stops at the anti-forgery check with
`NoCsrfToken`, having inspected only `state`. -/
theorem request_state_missing_eq (q : Query) (csrf : String)
    (env : ExchangeEnv) (h : qget q "state" = none) :
    request_user_token q csrf env
      = ⟨FlowOutcome.panicCsrf AuthError.NoCsrfToken,
         [FlowEvent.readKey "state"]⟩ := by
  simp [request_user_token, verify_csrf_token, h]

/-- Evaluation of `request_user_token` when the callback `state` does not
equal the generated CSRF token: the flow stops at the anti-forgery check
with `CsrfTokenMismatch`. -/
theorem request_state_mismatch_eq (q : Query) (csrf s : String)
    (env : ExchangeEnv) (hst : qget q "state" = some s) (hcs : csrf ≠ s) :
    request_user_token q csrf env
      = ⟨FlowOutcome.panicCsrf AuthError.CsrfTokenMismatch,
         [FlowEvent.readKey "state", FlowEvent.csrfCompare s]⟩ := by
  simp [request_user_token, verify_csrf_token, hst, hcs]

/-- Evaluation of `request_user_token` when the callback carries both
provider error parameters and a `state` matching the CSRF token: the
anti-forgery comparison runs first, then `extract_url` panics on the
error parameters, never reading `code`. -/
theorem request_error_params_eq (q : Query) (csrf s e d : String)
    (env : ExchangeEnv) (hst : qget q "state" = some s) (hcs : csrf = s)
    (he : qget q "error" = some e)
    (hd : qget q "error_description" = some d) :
    request_user_token q csrf env
      = ⟨FlowOutcome.panicErrorParams e d,
         [FlowEvent.readKey "state", FlowEvent.csrfCompare s,
          FlowEvent.readKey "error", FlowEvent.readKey "error_description"]⟩ := by
  simp [request_user_token, verify_csrf_token, extract_url, hst, hcs, he, hd]

/-- Evaluation of `request_user_token` when the error parameters are not
both present, `state` matches, and `code` is absent: the flow falls into
the `todo!()` arm. -/
theorem request_missing_code_eq (q : Query) (csrf s : String)
    (env : ExchangeEnv) (hst : qget q "state" = some s) (hcs : csrf = s)
    (hed : qget q "error" = none ∨ qget q "error_description" = none)
    (hcode : qget q "code" = none) :
    request_user_token q csrf env
      = ⟨FlowOutcome.panicTodo,
         [FlowEvent.readKey "state", FlowEvent.csrfCompare s,
          FlowEvent.readKey "error", FlowEvent.readKey "error_description",
          FlowEvent.readKey "state", FlowEvent.readKey "code"]⟩ := by
  rcases hed with he | hd
  · rcases hd2 : qget q "error_description" with _ | d <;>
      simp [request_user_token, verify_csrf_token, extract_url, hst, hcs,
            he, hd2, hcode]
  · rcases he2 : qget q "error" with _ | e <;>
      simp [request_user_token, verify_csrf_token, extract_url, hst, hcs,
            hd, he2, hcode]

/-- C3: a callback query lacking `state` is rejected at the anti-forgery
check with `NoCsrfToken` before `code` is ever inspected (no `code` read
and no exchange appears in the trace), even when `code` is present; and a
callback whose `state` differs from the CSRF token generated for this
attempt is rejected with `CsrfTokenMismatch` regardless of `code`, never
reaching the code-for-token exchange. -/
theorem csrf_rejection_guards_exchange (q : Query) (csrf : String)
    (env : ExchangeEnv) :
    (qget q "state" = none →
        (request_user_token q csrf env).outcome
          = FlowOutcome.panicCsrf AuthError.NoCsrfToken
      ∧ FlowEvent.readKey "code" ∉ (request_user_token q csrf env).trace
      ∧ ∀ s c, FlowEvent.exchange s c ∉ (request_user_token q csrf env).trace)
    ∧ (∀ s, qget q "state" = some s → csrf ≠ s →
        (request_user_token q csrf env).outcome
          = FlowOutcome.panicCsrf AuthError.CsrfTokenMismatch
      ∧ ∀ s' c, FlowEvent.exchange s' c ∉ (request_user_token q csrf env).trace) := by
  constructor
  · intro h
    rw [request_state_missing_eq q csrf env h]
    refine ⟨rfl, by decide, fun s c => by simp⟩
  · intro s hs hne
    rw [request_state_mismatch_eq q csrf s env hs hne]
    refine ⟨rfl, fun s' c => by simp⟩

/-- Witness for `csrf_rejection_guards_exchange`: the concrete queries
`qNoState` (a `code` but no `state`) and `qMismatch` (`state` not equal to
the CSRF token `"tok"`). -/
theorem csrf_rejection_guards_exchange_witness :
    (request_user_token qNoState "tok" exEnv).outcome
      = FlowOutcome.panicCsrf AuthError.NoCsrfToken
    ∧ (request_user_token qMismatch "tok" exEnv).outcome
      = FlowOutcome.panicCsrf AuthError.CsrfTokenMismatch :=
  ⟨((csrf_rejection_guards_exchange qNoState "tok" exEnv).1 (by decide)).1,
   ((csrf_rejection_guards_exchange qMismatch "tok" exEnv).2 "bad" (by decide)
      (by decide)).1⟩

/-- C4 counterexample: on the concrete callback query `qDenied`, which
carries `error` and `error_description` together with a `state` matching
the CSRF token `"tok"` and a `code`, the flow does abort on the error
parameters — but only after the anti-forgery comparison has been
performed (`csrfCompare` occurs in the trace), contradicting the claim
that the abort happens before the state comparison. -/
theorem error_params_after_csrf_cex :
    (request_user_token qDenied "tok" exEnv).outcome
      = FlowOutcome.panicErrorParams "access_denied" "denied"
    ∧ FlowEvent.csrfCompare "tok"
        ∈ (request_user_token qDenied "tok" exEnv).trace := by
  refine ⟨rfl, by decide⟩

/-- C4 (amended): a callback carrying both `error` and `error_description`
is fatal and the flow never inspects or exchanges `code`, but the
error-parameter check runs only after the anti-forgery validation: with a
matching `state` the flow aborts at the error-parameter panic (the
anti-forgery comparison having been performed), and with `state` absent it
aborts at the anti-forgery check instead; when the error parameters are
not both present, both `state` and `code` are required and the absence of
either is fatal. -/
theorem error_params_fatal (q : Query) (csrf : String) (env : ExchangeEnv) :
    (∀ e d, qget q "error" = some e → qget q "error_description" = some d →
        (request_user_token q csrf env).outcome.isFatal = true
      ∧ FlowEvent.readKey "code" ∉ (request_user_token q csrf env).trace
      ∧ (∀ s c, FlowEvent.exchange s c ∉ (request_user_token q csrf env).trace)
      ∧ (∀ s, qget q "state" = some s → csrf = s →
          (request_user_token q csrf env).outcome
            = FlowOutcome.panicErrorParams e d
          ∧ FlowEvent.csrfCompare s ∈ (request_user_token q csrf env).trace)
      ∧ (qget q "state" = none →
          (request_user_token q csrf env).outcome
            = FlowOutcome.panicCsrf AuthError.NoCsrfToken))
    ∧ ((qget q "error" = none ∨ qget q "error_description" = none) →
       (qget q "state" = none ∨ qget q "code" = none) →
        (request_user_token q csrf env).outcome.isFatal = true) := by
  constructor
  · intro e d he hd
    rcases hst : qget q "state" with _ | s
    · rw [request_state_missing_eq q csrf env hst]
      refine ⟨rfl, by simp, fun s c => by simp, ?_, fun _ => rfl⟩
      intro s hs
      cases hs
    · by_cases hcs : csrf = s
      · rw [request_error_params_eq q csrf s e d env hst hcs he hd]
        refine ⟨rfl, by simp, fun s' c => by simp, ?_, ?_⟩
        · intro s' hs' _
          cases hs'
          exact ⟨rfl, by simp⟩
        · intro hn
          cases hn
      · rw [request_state_mismatch_eq q csrf s env hst hcs]
        refine ⟨rfl, by simp, fun s' c => by simp, ?_, ?_⟩
        · intro s' hs' hcs'
          cases hs'
          exact absurd hcs' hcs
        · intro hn
          cases hn
  · intro hed hsc
    rcases hst : qget q "state" with _ | s
    · rw [request_state_missing_eq q csrf env hst]
      rfl
    · by_cases hcs : csrf = s
      · have hcode : qget q "code" = none := by
          rcases hsc with h | h
          · rw [hst] at h
            cases h
          · exact h
        rw [request_missing_code_eq q csrf s env hst hcs hed hcode]
        rfl
      · rw [request_state_mismatch_eq q csrf s env hst hcs]
        rfl

/-- Witness for `error_params_fatal`: the concrete denied-authorization
callback `qDenied` is fatal and its `code` parameter is never read. -/
theorem error_params_fatal_witness :
    (request_user_token qDenied "tok" exEnv).outcome.isFatal = true
    ∧ FlowEvent.readKey "code" ∉ (request_user_token qDenied "tok" exEnv).trace :=
  ⟨((error_params_fatal qDenied "tok" exEnv).1 "access_denied" "denied"
      (by decide) (by decide)).1,
   ((error_params_fatal qDenied "tok" exEnv).1 "access_denied" "denied"
      (by decide) (by decide)).2.1⟩

end Hewpme
